import Mathlib

/-!
Shallow embedding of `src/dgt.py` (sjvc/dgt-matriculaciones).

The program downloads monthly fixed-width vehicle-registration files,
parses each line into a typed record according to the `FIELDS` table,
and inserts the records into a SQLite table with
`UNIQUE (bastidor, fecha_matriculacion)` using `INSERT OR IGNORE`.

Python strings are modelled as `List Char` (code points, matching Python
slicing and `str.strip`).  Python `None` is `Value.null`.  The behaviour
of the standard-library pieces the code calls into is modelled from
their documented semantics: `datetime.strptime(..., "%d%m%Y")` is the
backtracking regex `(3[0-1]|[1-2]\d|0[1-9]|[1-9]| [1-9])` then
`(1[0-2]|0[1-9]|[1-9])` then `\d\d\d\d` with a full-match requirement,
followed by `datetime` range validation; SQLite `INSERT OR IGNORE` with
a `UNIQUE` constraint skips a conflicting row silently (and raises no
`sqlite3.IntegrityError`), where two rows conflict only when both
unique-key columns are pairwise equal and non-NULL (SQL `NULL` compares
unequal to everything, including `NULL`).
-/

/-- Logical column types of the `FIELDS` table in `dgt.py`. -/
inductive FType where
  | TEXT
  | DATE
  | REAL
  | INTEGER
deriving DecidableEq, Repr

/-- A parsed cell value.  `null` is Python `None`; `date y m d` is the
`datetime.date` with that year/month/day; `real` carries the exact
decimal value of a successful `float(...)`; `int` a successful
`int(...)` (or a 0/1 flag). -/
inductive Value where
  | null
  | text (s : List Char)
  | date (y m d : Nat)
  | real (q : Rat)
  | int (n : Int)
deriving DecidableEq, Repr

/-- `FIELDS` from `dgt.py`, in declaration order: name, byte width,
declared type. -/
def FIELDS : List (String × Nat × FType) :=
  [ (r"fecha_matriculacion",         8,  .DATE),
    (r"clase_matricula",             1,  .TEXT),
    (r"fecha_transferencia",         8,  .DATE),
    (r"vehiculo_marca",              30, .TEXT),
    (r"vehiculo_modelo",             22, .TEXT),
    (r"codigo_procedencia",          1,  .TEXT),
    (r"bastidor",                    21, .TEXT),
    (r"codigo_tipo",                 2,  .TEXT),
    (r"cod_propulsion",              1,  .TEXT),
    (r"cilindrada",                  5,  .REAL),
    (r"potencia",                    6,  .REAL),
    (r"tara",                        6,  .REAL),
    (r"peso_maximo",                 6,  .REAL),
    (r"plazas",                      3,  .INTEGER),
    (r"precintado",                  2,  .INTEGER),
    (r"embargado",                   2,  .INTEGER),
    (r"transmisiones",               2,  .INTEGER),
    (r"titulares",                   2,  .INTEGER),
    (r"localidad",                   24, .TEXT),
    (r"provincia",                   2,  .TEXT),
    (r"provincia_matriculacion",     2,  .TEXT),
    (r"tramite",                     1,  .TEXT),
    (r"fecha_tramite",               8,  .DATE),
    (r"codigo_postal",               5,  .TEXT),
    (r"fecha_primera_matriculacion", 8,  .DATE),
    (r"nuevo",                       1,  .INTEGER),
    (r"persona_juridica",            1,  .INTEGER),
    (r"codigo_itv",                  9,  .TEXT),
    (r"servicio",                    3,  .TEXT),
    (r"codigo_municipio_ine",        5,  .INTEGER),
    (r"municipio",                   30, .TEXT),
    (r"potencia_kw",                 7,  .REAL),
    (r"plazas_maximo",               3,  .INTEGER),
    (r"co2",                         5,  .INTEGER),
    (r"renting",                     1,  .INTEGER),
    (r"titular_tutelado",            1,  .INTEGER) ]

/-- Sum of the widths of all fields (the fixed record length). -/
def widthSum (fs : List (String × Nat × FType)) : Nat :=
  (fs.map (fun f => f.2.1)).sum

/-- Python `str.isspace` restricted to code points ≤ U+00FF (the range
producible from the latin-1 decoded input): space, tab, LF, VT, FF, CR,
FS/GS/RS/US, NEL, NBSP. -/
def pyIsSpace (c : Char) : Bool :=
  c == ' ' || c == '\t' || c == '\n' || c == '\x0b' || c == '\x0c' ||
  c == '\r' || c == '\x1c' || c == '\x1d' || c == '\x1e' || c == '\x1f' ||
  c == '\x85' || c == '\xa0'

/-- Python `str.strip()`: remove whitespace from both ends. -/
def pyStrip (l : List Char) : List Char :=
  ((l.dropWhile pyIsSpace).reverse.dropWhile pyIsSpace).reverse

/-- Python slicing `line[index:index + size]` (for a nonnegative start). -/
def pySlice (l : List Char) (index size : Nat) : List Char :=
  (l.drop index).take size

/-- Numeric value of a digit character. -/
def dval (c : Char) : Nat := c.toNat - 48

/-- Is `c` an ASCII decimal digit (`\d` on this input range)? -/
def isDig (c : Char) : Bool := 48 ≤ c.toNat && c.toNat ≤ 57

/-- The day matches of `(?P<d>3[0-1]|[1-2]\d|0[1-9]|[1-9]| [1-9])` at the
head of `l`, as (value, remaining input), in regex alternation order —
exactly the alternatives CPython `_strptime` compiles for `%d`. -/
def dayCands : List Char → List (Nat × List Char)
  | c1 :: c2 :: rest =>
      (if c1 == '3' && (c2 == '0' || c2 == '1') then [(30 + dval c2, rest)] else []) ++
      (if (c1 == '1' || c1 == '2') && isDig c2 then [(10 * dval c1 + dval c2, rest)] else []) ++
      (if c1 == '0' && (49 ≤ c2.toNat && c2.toNat ≤ 57) then [(dval c2, rest)] else []) ++
      (if 49 ≤ c1.toNat && c1.toNat ≤ 57 then [(dval c1, c2 :: rest)] else []) ++
      (if c1 == ' ' && (49 ≤ c2.toNat && c2.toNat ≤ 57) then [(dval c2, rest)] else [])
  | [c1] => if 49 ≤ c1.toNat && c1.toNat ≤ 57 then [(dval c1, [])] else []
  | [] => []

/-- The month matches of `(?P<m>1[0-2]|0[1-9]|[1-9])` (CPython `%m`). -/
def monthCands : List Char → List (Nat × List Char)
  | c1 :: c2 :: rest =>
      (if c1 == '1' && (48 ≤ c2.toNat && c2.toNat ≤ 50) then [(10 + dval c2, rest)] else []) ++
      (if c1 == '0' && (49 ≤ c2.toNat && c2.toNat ≤ 57) then [(dval c2, rest)] else []) ++
      (if 49 ≤ c1.toNat && c1.toNat ≤ 57 then [(dval c1, c2 :: rest)] else [])
  | [c1] => if 49 ≤ c1.toNat && c1.toNat ≤ 57 then [(dval c1, [])] else []
  | [] => []

/-- `(?P<Y>\d\d\d\d)` which must consume the whole remaining input
(CPython raises "unconverted data remains" otherwise). -/
def yearParse : List Char → Option Nat
  | [a, b, c, d] =>
      if isDig a && isDig b && isDig c && isDig d then
        some (1000 * dval a + 100 * dval b + 10 * dval c + dval d)
      else none
  | _ => none

/-- The regex phase of `datetime.strptime(s, "%d%m%Y")`: leftmost match
with backtracking, i.e. the first day/month alternative pair for which
the year pattern consumes the rest of the input.  Returns (day, month,
year) digits without range validation beyond the patterns themselves. -/
def strptimeDMY (l : List Char) : Option (Nat × Nat × Nat) :=
  (dayCands l).findSome? (fun dc =>
    (monthCands dc.2).findSome? (fun mc =>
      (yearParse mc.2).map (fun y => (dc.1, mc.1, y))))

/-- Gregorian leap year, as in Python `datetime`. -/
def isLeap (y : Nat) : Bool := y % 4 == 0 && (y % 100 != 0 || y % 400 == 0)

/-- Length of month `m` in year `y`, as in Python `datetime`. -/
def daysInMonth (y m : Nat) : Nat :=
  if m == 2 then (if isLeap y then 29 else 28)
  else if m == 4 || m == 6 || m == 9 || m == 11 then 30
  else 31

/-- Full `datetime.strptime(s, "%d%m%Y").date()`: the regex phase, then
the `datetime(year, month, day)` construction which raises `ValueError`
(here: `none`) outside the valid calendar ranges (`MINYEAR = 1`). -/
def pyStrptimeDate (l : List Char) : Option (Nat × Nat × Nat) :=
  match strptimeDMY l with
  | none => none
  | some (d, m, y) =>
      if 1 ≤ y ∧ 1 ≤ m ∧ m ≤ 12 ∧ 1 ≤ d ∧ d ≤ daysInMonth y m then some (d, m, y)
      else none

/-- Value of a nonempty digit string, most significant first. -/
def digitsVal (l : List Char) : Nat := l.foldl (fun acc c => 10 * acc + dval c) 0

/-- A nonempty all-digit string, or failure. -/
def natDigits (l : List Char) : Option Nat :=
  if !l.isEmpty && l.all isDig then some (digitsVal l) else none

/-- Python `int(s)` on a stripped string: optional sign then decimal
digits (underscore separators and non-ASCII digits are not modelled; no
claim depends on them). -/
def pyInt : List Char → Option Int
  | [] => none
  | c :: rest =>
      if c == '+' then (natDigits rest).map Int.ofNat
      else if c == '-' then (natDigits rest).map (fun n => -(n : Int))
      else (natDigits (c :: rest)).map Int.ofNat

/-- Mantissa of a Python float literal: `digits [. digits]` or
`. digits`; returns its exact value and the unconsumed input. -/
def pyFloatBody (l : List Char) : Option (Rat × List Char) :=
  let ip := l.takeWhile isDig
  let rest := l.dropWhile isDig
  match rest with
  | '.' :: rest2 =>
      let fp := rest2.takeWhile isDig
      let rest3 := rest2.dropWhile isDig
      if ip.isEmpty && fp.isEmpty then none
      else some ((digitsVal ip : Rat) + (digitsVal fp : Rat) / ((10 : Rat) ^ fp.length), rest3)
  | _ => if ip.isEmpty then none else some ((digitsVal ip : Rat), rest)

/-- Unsigned float body plus optional exponent part, fully consumed. -/
def pyFloatAux (l : List Char) : Option Rat :=
  match pyFloatBody l with
  | none => none
  | some (q, rest) =>
      match rest with
      | [] => some q
      | c :: r =>
          if c == 'e' || c == 'E' then (pyInt r).map (fun e => q * (10 : Rat) ^ e)
          else none

/-- Python `float(s)` on a stripped string, with the exact decimal value
(IEEE rounding, `inf`/`nan` spellings and underscore separators are not
modelled; no claim depends on them). -/
def pyFloat : List Char → Option Rat
  | [] => none
  | c :: rest =>
      if c == '+' then pyFloatAux rest
      else if c == '-' then (pyFloatAux rest).map Neg.neg
      else pyFloatAux (c :: rest)

def nuevoName : String := "nuevo"
def persona_juridicaName : String := "persona_juridica"
def precintadoName : String := "precintado"
def embargadoName : String := "embargado"
def rentingName : String := "renting"
def titular_tuteladoName : String := "titular_tutelado"
def bastidorName : String := "bastidor"
def fechaName : String := "fecha_matriculacion"

def strN : List Char := ['N']
def strX : List Char := ['X']
def strSI : List Char := ['S', 'I']
def strS : List Char := ['S']

/-- `parse_value` from `dgt.py`: per-type coercion of one raw field
value; every failure path returns `None` (`null`), the flag fields
return 0/1 and can never be `null`. -/
def parse_value (value : List Char) (field_name : String) (field_type : FType) : Value :=
  match field_type with
  | .DATE =>
      let t := pyStrip value
      if t.isEmpty then .null
      else
        match pyStrptimeDate t with
        | some (d, m, y) => .date y m d
        | none => .null
  | .REAL =>
      let t := pyStrip value
      if t.isEmpty then .null
      else
        match pyFloat t with
        | some q => .real q
        | none => .null
  | .INTEGER =>
      if field_name = nuevoName ∨ field_name = persona_juridicaName then
        (if pyStrip value = strN ∨ pyStrip value = strX then .int 1 else .int 0)
      else if field_name = precintadoName ∨ field_name = embargadoName ∨
              field_name = rentingName ∨ field_name = titular_tuteladoName then
        (if pyStrip value = strSI ∨ pyStrip value = strS then .int 1 else .int 0)
      else
        let t := pyStrip value
        if t.isEmpty then .null
        else
          match pyInt t with
          | some n => .int n
          | none => .null
  | .TEXT => .text (pyStrip value)

/-- A parsed record: field name to value, in `FIELDS` order. -/
abbrev Record := List (String × Value)

/-- The slicing loop body of `parse_line`: walk the schema keeping a
running offset, parse each fixed-width slice. -/
def parseFields : List (String × Nat × FType) → List Char → Nat → Record
  | [], _, _ => []
  | (name, size, t) :: rest, line, index =>
      (name, parse_value (pySlice line index size) name t) :: parseFields rest line (index + size)

/-- `parse_line` from `dgt.py`. -/
def parse_line (line : List Char) : Record := parseFields FIELDS line 0

/-- The raw per-field spans `line[index:index + size]` sliced by
`parse_line`, in schema order (before any coercion). -/
def rawSpansFrom : List (String × Nat × FType) → List Char → Nat → List (List Char)
  | [], _, _ => []
  | (_, size, _) :: rest, line, index =>
      pySlice line index size :: rawSpansFrom rest line (index + size)

def rawSpans (line : List Char) : List (List Char) := rawSpansFrom FIELDS line 0

/-- Is a value SQL `NULL`? -/
def isNullV : Value → Bool
  | .null => true
  | _ => false

/-- SQL equality as used by a `UNIQUE` index column comparison: equal
and both non-NULL (`NULL` is distinct from everything, including
`NULL`). -/
def sqlEqB (v w : Value) : Bool :=
  !isNullV v && !isNullV w && decide (v = w)

/-- The natural-key columns of the `UNIQUE (bastidor,
fecha_matriculacion)` clause emitted by `create_table`. -/
def create_table_unique_key : List String := [bastidorName, fechaName]

/-- First value bound to `name` in a record (SQL column read); `null`
when absent. -/
def getVal : Record → String → Value
  | [], _ => .null
  | (k, v) :: rest, name => if k = name then v else getVal rest name

def bastidorVal (r : Record) : Value := getVal r bastidorName

def fechaVal (r : Record) : Value := getVal r fechaName

/-- Do `r` and an existing row `row` violate the `UNIQUE (bastidor,
fecha_matriculacion)` constraint of `create_table`? -/
def conflictB (r row : Record) : Bool :=
  sqlEqB (bastidorVal row) (bastidorVal r) && sqlEqB (fechaVal row) (fechaVal r)

/-- Both natural-key fields of `r` are non-NULL. -/
def nonNullKeys (r : Record) : Bool :=
  !isNullV (bastidorVal r) && !isNullV (fechaVal r)

/-- The `INSERT OR IGNORE INTO matriculaciones ...` statement issued by
`process_and_insert_file`, against a store modelled as the list of
persisted rows in insertion order: a row conflicting with an existing
one (per SQLite `UNIQUE` semantics) is skipped silently, otherwise it is
appended. -/
def insertOrIgnore (db : List Record) (r : Record) : List Record :=
  if db.any (fun row => conflictB r row) then db else db ++ [r]

/-- The `cursor.execute(INSERT OR IGNORE ...)` call together with its
`try/except sqlite3.IntegrityError` wrapper: the resulting store, and
whether the except-branch `print` ran.  Per SQLite semantics `OR IGNORE`
turns the uniqueness violation into a silent skip and raises no
`IntegrityError` (the table has no other violable constraint), so the
handler never fires. -/
def insert_record (db : List Record) (r : Record) : List Record × Bool :=
  (insertOrIgnore db r, false)

def headerMarker : String := "Vehículos matriculados"

/-- `a` is a prefix of `b` (Python `str.startswith`). -/
def isPrefixOfB : List Char → List Char → Bool
  | [], _ => true
  | _ :: _, [] => false
  | a :: as, b :: bs => a == b && isPrefixOfB as bs

/-- The line filter of `process_and_insert_file`: keep lines that are
non-blank after stripping and do not start with the header marker. -/
def keepLine (line : String) : Bool :=
  !(pyStrip line.data).isEmpty && !isPrefixOfB headerMarker.data line.data

/-- `process_and_insert_file` from `dgt.py`: stream the file's lines (as
Python yields them, trailing newline included), skip blank and header
lines, parse and insert each remaining line. -/
def process_and_insert_file (lines : List String) (db : List Record) : List Record :=
  lines.foldl (fun db line => if keepLine line then insertOrIgnore db (parse_line line.data) else db) db

/-- Insert a list of already-parsed records in order. -/
def insertList (db : List Record) (rs : List Record) : List Record :=
  rs.foldl insertOrIgnore db

/-- The records `process_and_insert_file` actually inserts. -/
def keptRecords (lines : List String) : List Record :=
  (lines.filter keepLine).map (fun l => parse_line l.data)

def DATA_FOLDER : String := "dgt_data"

/-- `os.path.basename` for the forward-slash paths found in the zip
directory: everything after the last `/`. -/
def basename (p : List Char) : List Char :=
  (p.reverse.takeWhile (fun c => !(c == '/'))).reverse

/-- `os.path.join(DATA_FOLDER, filename)` for a nonempty filename. -/
def joinPath (dir file : List Char) : List Char := dir ++ '/' :: file

/-- `download_and_extract_file` from `dgt.py`.  The network and the zip
directory are abstracted into `resp`: `.error` is a
`requests.RequestException` (non-2xx status via `raise_for_status`, or a
connection error) — the code prints and falls through, returning `None`;
`.ok members` is the `namelist()` of the downloaded archive.  For every
member whose basename is nonempty (i.e. not a bare directory entry) the
code extracts it to `DATA_FOLDER/basename` and collects that path; it
returns the first collected path, or `None` if none.  URL construction
and the actual file writes are I/O with no bearing on the returned
value. -/
def download_and_extract_file (_year _month : Int) (resp : Except String (List (List Char))) :
    Option (List Char) :=
  match resp with
  | .error _ => none
  | .ok members =>
      (members.filterMap (fun m =>
        let b := basename m
        if b.isEmpty then none else some (joinPath DATA_FOLDER.data b))).head?

/-- Integers `m, m+1, ..., m+k-1` (Python `range(m, m+k)`). -/
def rangeInts : Int → Nat → List Int
  | _, 0 => []
  | m, Nat.succ k => m :: rangeInts (m + 1) k

/-- The month loop body of `main`, for a fixed `year`: iterate `m` over
`1..12` (the fuel argument counts the remaining iterations); `continue`
when `year == start_year and month < start_month`; `break` when
`year == end_year and month > end_month`; otherwise process the month. -/
def monthLoopGo (y start_year start_month end_year end_month : Int) : Nat → Int → List Int
  | 0, _ => []
  | Nat.succ k, m =>
      if y = start_year ∧ m < start_month then
        monthLoopGo y start_year start_month end_year end_month k (m + 1)
      else if y = end_year ∧ m > end_month then []
      else m :: monthLoopGo y start_year start_month end_year end_month k (m + 1)

/-- The (year, month) pairs `main` attempts to fetch and process, in
iteration order: `for year in range(start_year, end_year + 1)`, then the
month loop `for month in range(1, 13)` with its continue/break. -/
def main_pairs (start_year start_month end_year end_month : Int) : List (Int × Int) :=
  (rangeInts start_year (end_year + 1 - start_year).toNat).flatMap
    (fun y => (monthLoopGo y start_year start_month end_year end_month 12 1).map (fun m => (y, m)))

/-- The calendar pairs from (start_year, start_month) to (end_year,
end_month) inclusive, in chronological order, as the claim states them:
every year of the range, months 1–12, omitting months before
start_month in the start year and months after end_month in the end
year. -/
def chronological_pairs (start_year start_month end_year end_month : Int) : List (Int × Int) :=
  (rangeInts start_year (end_year + 1 - start_year).toNat).flatMap
    (fun y =>
      ((rangeInts 1 12).filter
        (fun m => decide ((y = start_year → start_month ≤ m) ∧ (y = end_year → m ≤ end_month)))).map
        (fun m => (y, m)))

/-- Chronological strict order on (year, month) pairs. -/
def chronLt (a b : Int × Int) : Prop := a.1 < b.1 ∨ (a.1 = b.1 ∧ a.2 < b.2)

/-- `n` spaces. -/
def sp (n : Nat) : String := String.mk (List.replicate n ' ')

/-- A synthetic valid data line of exactly `widthSum FIELDS = 244`
characters, one span per field in schema order. -/
def dataLine : String :=
  r"15062021" ++ r"A" ++ sp 8 ++
  r"TOYOTA" ++ sp 24 ++
  r"COROLLA" ++ sp 15 ++
  r"1" ++
  r"WVWZZZ1JZXW000001" ++ sp 4 ++
  r"20" ++ r"0" ++
  sp 5 ++ sp 6 ++ sp 6 ++ sp 6 ++
  r"  5" ++
  r"NO" ++ r"NO" ++
  r" 0" ++ r" 1" ++
  r"MADRID" ++ sp 18 ++
  r"28" ++ r"28" ++ r"1" ++
  r"15062021" ++ r"28001" ++ r"15062021" ++
  r"N" ++ r"X" ++
  sp 9 ++
  r"A00" ++
  r"28079" ++
  r"MADRID" ++ sp 24 ++
  sp 7 ++
  r"  5" ++
  r"  120" ++
  r"S" ++ r"N"

/-- The synthetic text file of the end-to-end scenario, as the lines
Python's file iteration yields (trailing newlines included): one header
line, one blank line, one valid 244-character data line. -/
def syntheticFile : List String :=
  [headerMarker ++ (r" durante 06/2021") ++ (r"
"), "\n", dataLine ++ (r"
")]

/-- The typed record the data line of `syntheticFile` denotes, field by
field per the Field Schema coercions. -/
def expectedRecord : Record :=
  [ (r"fecha_matriculacion", .date 2021 6 15),
    (r"clase_matricula", .text (r"A").data),
    (r"fecha_transferencia", .null),
    (r"vehiculo_marca", .text (r"TOYOTA").data),
    (r"vehiculo_modelo", .text (r"COROLLA").data),
    (r"codigo_procedencia", .text (r"1").data),
    (r"bastidor", .text (r"WVWZZZ1JZXW000001").data),
    (r"codigo_tipo", .text (r"20").data),
    (r"cod_propulsion", .text (r"0").data),
    (r"cilindrada", .null),
    (r"potencia", .null),
    (r"tara", .null),
    (r"peso_maximo", .null),
    (r"plazas", .int 5),
    (r"precintado", .int 0),
    (r"embargado", .int 0),
    (r"transmisiones", .int 0),
    (r"titulares", .int 1),
    (r"localidad", .text (r"MADRID").data),
    (r"provincia", .text (r"28").data),
    (r"provincia_matriculacion", .text (r"28").data),
    (r"tramite", .text (r"1").data),
    (r"fecha_tramite", .date 2021 6 15),
    (r"codigo_postal", .text (r"28001").data),
    (r"fecha_primera_matriculacion", .date 2021 6 15),
    (r"nuevo", .int 1),
    (r"persona_juridica", .int 1),
    (r"codigo_itv", .text []),
    (r"servicio", .text (r"A00").data),
    (r"codigo_municipio_ine", .int 28079),
    (r"municipio", .text (r"MADRID").data),
    (r"potencia_kw", .null),
    (r"plazas_maximo", .int 5),
    (r"co2", .int 120),
    (r"renting", .int 1),
    (r"titular_tutelado", .int 0) ]

/-- The record parsed from the synthetic data line. -/
def rec1 : Record := parse_line dataLine.data

/-- `parse_line("")`: every date field (in particular
`fecha_matriculacion`) is `null`, `bastidor` is the empty text. -/
def nullKeyRec : Record := parse_line []

/-- An 8-character raw DATE cell that is not in `DDMMYYYY` form (six
digits with surrounding blanks) yet is accepted by
`strptime("%d%m%Y")`. -/
def malformedDateInput : List Char := [' ', '1', '1', '1', '9', '9', '9', ' ']

/-- The digit character of `k` (for `k ≤ 9`; clamps at `9` above). -/
def dchar : Nat → Char
  | 0 => '0'
  | 1 => '1'
  | 2 => '2'
  | 3 => '3'
  | 4 => '4'
  | 5 => '5'
  | 6 => '6'
  | 7 => '7'
  | 8 => '8'
  | _ => '9'

/-- Two-digit zero-padded decimal rendering (for `n < 100`). -/
def pad2 (n : Nat) : List Char := [dchar (n / 10), dchar (n % 10)]

/-- Four-digit zero-padded decimal rendering (for `n < 10000`). -/
def pad4 (n : Nat) : List Char :=
  [dchar (n / 1000), dchar (n / 100 % 10), dchar (n / 10 % 10), dchar (n % 10)]

/-- The 8-character `DDMMYYYY` rendering of a day/month/year triple. -/
def fmtDDMMYYYY (d m y : Nat) : List Char := pad2 d ++ pad2 m ++ pad4 y

/-- Either the line is filtered out, or its parsed
`fecha_matriculacion` is non-null (the hypothesis under which double
ingestion is idempotent). -/
def lineNonNullFecha (line : String) : Bool :=
  !keepLine line || !isNullV (fechaVal (parse_line line.data))

theorem take_add_split {α : Type} : ∀ (a b : Nat) (l : List α),
    l.take (a + b) = l.take a ++ (l.drop a).take b := by
  intro a
  induction a with
  | zero => intro b l; simp
  | succ a ih =>
      intro b l
      cases l with
      | nil => simp
      | cons x xs =>
          simp only [Nat.succ_add, List.take_succ_cons, List.drop_succ_cons, List.cons_append,
            List.cons.injEq, true_and]
          exact ih b xs

theorem widthSum_cons (name : String) (size : Nat) (t : FType) (fs : List (String × Nat × FType)) :
    widthSum ((name, size, t) :: fs) = size + widthSum fs := by
  simp [widthSum]

theorem rawSpansFrom_flatten : ∀ (fs : List (String × Nat × FType)) (line : List Char) (idx : Nat),
    (rawSpansFrom fs line idx).flatten = (line.drop idx).take (widthSum fs) := by
  intro fs
  induction fs with
  | nil => intro line idx; simp [rawSpansFrom, widthSum]
  | cons f fs ih =>
      intro line idx
      obtain ⟨name, size, t⟩ := f
      rw [rawSpansFrom, List.flatten_cons, widthSum_cons, take_add_split, ih, pySlice,
        List.drop_drop]

/-- Claim C4 (confirmed): for every line whose length equals the sum of
all field widths, concatenating the raw per-field spans sliced by the
parser, in schema order, reconstructs exactly the original line: the
running-offset arithmetic covers the line contiguously. -/
theorem raw_spans_reconstruct (line : List Char) (h : line.length = widthSum FIELDS) :
    (rawSpans line).flatten = line := by
  rw [rawSpans, rawSpansFrom_flatten, List.drop_zero, ← h, List.take_length]

set_option maxRecDepth 8000 in
/-- Witness for C4 at the concrete 244-character synthetic data line. -/
theorem raw_spans_reconstruct_witness : (rawSpans dataLine.data).flatten = dataLine.data :=
  raw_spans_reconstruct dataLine.data (by decide)

theorem parseFields_keys : ∀ (fs : List (String × Nat × FType)) (line : List Char) (idx : Nat),
    (parseFields fs line idx).map Prod.fst = fs.map (fun f => f.1) := by
  intro fs
  induction fs with
  | nil => intro line idx; rfl
  | cons f fs ih =>
      intro line idx
      obtain ⟨name, size, t⟩ := f
      simp [parseFields, ih]

/-- Claim C5 (confirmed): for every input string, of any length, parse
returns a record mapping every schema field name to a value (the key
list of the result is exactly the schema's name list, so the record has
one entry per field); the parser is a total function, so no exception
can escape, and each coercion failure shows up as `null` (or the flag
default) in the corresponding entry. -/
theorem parse_line_total (line : List Char) :
    (parse_line line).map Prod.fst = FIELDS.map (fun f => f.1)
  ∧ (parse_line line).length = FIELDS.length := by
  constructor
  · exact parseFields_keys FIELDS line 0
  · have h := congrArg List.length (parseFields_keys FIELDS line 0)
    simpa using h

theorem parse_value_nuevo (v : List Char) :
    parse_value v nuevoName .INTEGER =
      .int (if pyStrip v = strN ∨ pyStrip v = strX then 1 else 0) := by
  simp only [parse_value]
  rw [if_pos (Or.inl trivial), apply_ite Value.int]

theorem parse_value_persona_juridica (v : List Char) :
    parse_value v persona_juridicaName .INTEGER =
      .int (if pyStrip v = strN ∨ pyStrip v = strX then 1 else 0) := by
  simp only [parse_value]
  rw [if_pos (Or.inr trivial), apply_ite Value.int]

theorem parse_value_si_flag (v : List Char) (name : String)
    (h : name = precintadoName ∨ name = embargadoName ∨ name = rentingName ∨
      name = titular_tuteladoName)
    (hn : ¬(name = nuevoName ∨ name = persona_juridicaName)) :
    parse_value v name .INTEGER =
      .int (if pyStrip v = strSI ∨ pyStrip v = strS then 1 else 0) := by
  simp only [parse_value]
  rw [if_neg hn, if_pos h, apply_ite Value.int]

/-- Claim C2 (confirmed): flag-encoded integer fields never parse to
null; `nuevo`/`persona_juridica` are 1 exactly when the trimmed text is
"N" or "X" and 0 otherwise; `precintado`/`embargado`/`renting`/
`titular_tutelado` are 1 exactly when the trimmed text is "SI" or "S"
and 0 otherwise (including empty input). -/
theorem flag_fields_never_null (v : List Char) :
    parse_value v nuevoName .INTEGER =
      .int (if pyStrip v = strN ∨ pyStrip v = strX then 1 else 0)
  ∧ parse_value v persona_juridicaName .INTEGER =
      .int (if pyStrip v = strN ∨ pyStrip v = strX then 1 else 0)
  ∧ parse_value v precintadoName .INTEGER =
      .int (if pyStrip v = strSI ∨ pyStrip v = strS then 1 else 0)
  ∧ parse_value v embargadoName .INTEGER =
      .int (if pyStrip v = strSI ∨ pyStrip v = strS then 1 else 0)
  ∧ parse_value v rentingName .INTEGER =
      .int (if pyStrip v = strSI ∨ pyStrip v = strS then 1 else 0)
  ∧ parse_value v titular_tuteladoName .INTEGER =
      .int (if pyStrip v = strSI ∨ pyStrip v = strS then 1 else 0)
  ∧ parse_value v nuevoName .INTEGER ≠ .null
  ∧ parse_value v persona_juridicaName .INTEGER ≠ .null
  ∧ parse_value v precintadoName .INTEGER ≠ .null
  ∧ parse_value v embargadoName .INTEGER ≠ .null
  ∧ parse_value v rentingName .INTEGER ≠ .null
  ∧ parse_value v titular_tuteladoName .INTEGER ≠ .null := by
  have h1 := parse_value_nuevo v
  have h2 := parse_value_persona_juridica v
  have h3 := parse_value_si_flag v precintadoName (Or.inl rfl) (by decide)
  have h4 := parse_value_si_flag v embargadoName (Or.inr (Or.inl rfl)) (by decide)
  have h5 := parse_value_si_flag v rentingName (Or.inr (Or.inr (Or.inl rfl))) (by decide)
  have h6 := parse_value_si_flag v titular_tuteladoName (Or.inr (Or.inr (Or.inr rfl))) (by decide)
  refine ⟨h1, h2, h3, h4, h5, h6, ?_, ?_, ?_, ?_, ?_, ?_⟩ <;>
    first
      | (rw [h1]; split <;> simp)
      | (rw [h2]; split <;> simp)
      | (rw [h3]; split <;> simp)
      | (rw [h4]; split <;> simp)
      | (rw [h5]; split <;> simp)
      | (rw [h6]; split <;> simp)

/-- Counterexample for C6: the claim's premise that 171 characters is
the sum of all field widths in the Field Schema is false — the widths
sum to 244. -/
theorem width_sum_not_171_counterexample : widthSum FIELDS = 244 ∧ ¬ widthSum FIELDS = 171 := by
  decide

set_option maxRecDepth 40000 in
/-- Claim C6 (corrected, 171 → 244): processing a synthetic text file
containing one header line, one blank line, and one valid 244-character
data line — 244 being the sum of all field widths — yields exactly one
persisted row whose column values are the expected typed values of that
line's fields. -/
theorem synthetic_file_one_row_amended :
    process_and_insert_file syntheticFile [] = [expectedRecord] := by
  decide

/-- Claim C10 (confirmed): a record whose `fecha_matriculacion` is null
is always appended as a new row — the SQL `UNIQUE` constraint never
fires for it, whatever the existing rows contain (in particular even
when a row has an equal `bastidor` and an equally-null
`fecha_matriculacion`), because SQL `NULL` key values are pairwise
distinct; so the uniqueness invariant only constrains rows with
non-null natural-key fields. -/
theorem null_fecha_always_inserted (db : List Record) (r : Record)
    (h : isNullV (fechaVal r) = true) : insertOrIgnore db r = db ++ [r] := by
  have hconf : ∀ row : Record, conflictB r row = false := by
    intro row
    simp [conflictB, sqlEqB, h]
  simp [insertOrIgnore, hconf]

/-- Witness for C10: `parse_line("")` has a null `fecha_matriculacion`
and is re-appended even when the store already holds an identical
row. -/
theorem null_fecha_always_inserted_witness :
    insertOrIgnore [nullKeyRec] nullKeyRec = [nullKeyRec] ++ [nullKeyRec] :=
  null_fecha_always_inserted [nullKeyRec] nullKeyRec (by decide)

/-- Counterexample for C3: re-inserting `parse_line("")` — whose natural
key (empty-text `bastidor`, null `fecha_matriculacion`) is equal, as
values, to that of the already-persisted copy — grows the store from 1
row to 2, so ingestion is not idempotent for records with a null
natural-key component. -/
theorem reinsert_nullkey_counterexample :
    ¬ ((insertOrIgnore [nullKeyRec] nullKeyRec).length = ([nullKeyRec] : List Record).length) := by
  decide

/-- Counterexample for C8: an insert that violates the uniqueness
constraint (here: re-inserting the synthetic record over itself) is
discarded, but nothing is logged — `INSERT OR IGNORE` suppresses the
`sqlite3.IntegrityError`, so the except-branch `print` never runs,
contradicting the claim that the violation is logged. -/
theorem insert_conflict_not_logged_counterexample :
    (List.any [rec1] (fun row => conflictB rec1 row) = true)
  ∧ (insert_record [rec1] rec1).2 = false := by
  decide

/-- Claim C8 (corrected, "logged" dropped): when an insert would violate
the uniqueness constraint over the natural-key fields, the conflicting
row is silently discarded (insert-or-ignore semantics), no error is
raised to the caller, nothing is logged (the `IntegrityError` handler is
unreachable for uniqueness conflicts), and the store is unchanged. -/
theorem insert_conflict_silent_amended (db : List Record) (r : Record)
    (h : db.any (fun row => conflictB r row) = true) :
    insert_record db r = (db, false) := by
  simp [insert_record, insertOrIgnore, h]

/-- Witness for C8 at a concrete conflicting insert. -/
theorem insert_conflict_silent_witness : insert_record [rec1] rec1 = ([rec1], false) :=
  insert_conflict_silent_amended [rec1] rec1 (by decide)

theorem extract_head_eq_find : ∀ (ms : List (List Char)),
    (ms.filterMap (fun m =>
      if (basename m).isEmpty then none else some (joinPath DATA_FOLDER.data (basename m)))).head? =
    (ms.find? (fun m => !(basename m).isEmpty)).map
      (fun m => joinPath DATA_FOLDER.data (basename m)) := by
  intro ms
  induction ms with
  | nil => rfl
  | cons m ms ih =>
      rw [List.filterMap_head?] at ih ⊢
      simp only [List.isEmpty_iff] at ih
      by_cases h : basename m = []
      · simp [List.findSome?_cons, List.find?_cons, List.isEmpty_iff, h, ih]
      · simp [List.findSome?_cons, List.find?_cons, List.isEmpty_iff, h]

/-- Claim C9 (confirmed): for every (year, month) the fetch is a total
function (never raises); on a transport-level failure it returns absent;
on success where every archive member is a bare directory entry (empty
basename) it returns absent; in general it returns the
`DATA_FOLDER`-joined basename of the first member with a nonempty
basename — the path of the first extracted file. -/
theorem fetch_never_raises :
    (∀ (year month : Int) (e : String),
        download_and_extract_file year month (.error e) = none)
  ∧ (∀ (year month : Int) (ms : List (List Char)),
        ms.all (fun m => (basename m).isEmpty) = true →
        download_and_extract_file year month (.ok ms) = none)
  ∧ (∀ (year month : Int) (ms : List (List Char)),
        download_and_extract_file year month (.ok ms) =
          (ms.find? (fun m => !(basename m).isEmpty)).map
            (fun m => joinPath DATA_FOLDER.data (basename m))) := by
  refine ⟨fun _ _ _ => rfl, ?_, ?_⟩
  · intro year month ms hall
    rw [download_and_extract_file, extract_head_eq_find]
    have : ms.find? (fun m => !(basename m).isEmpty) = none := by
      rw [List.find?_eq_none]
      intro m hm
      simp [List.all_eq_true.mp hall m hm]
    rw [this]
    rfl
  · intro year month ms
    rw [download_and_extract_file, extract_head_eq_find]

/-- Witness for C9: a failed download, an archive with only a directory
entry, and an archive whose first real file is `carpeta/export.txt`. -/
theorem fetch_never_raises_witness :
    download_and_extract_file 2021 6 (.error (r"boom")) = none
  ∧ download_and_extract_file 2021 6 (.ok [(r"carpeta/").data]) = none
  ∧ download_and_extract_file 2021 6 (.ok [(r"carpeta/").data, (r"carpeta/export.txt").data]) =
      some (joinPath DATA_FOLDER.data (r"export.txt").data) := by
  refine ⟨fetch_never_raises.1 2021 6 (r"boom"),
          fetch_never_raises.2.1 2021 6 [(r"carpeta/").data] (by decide), ?_⟩
  rw [fetch_never_raises.2.2 2021 6]
  decide

theorem mem_rangeInts : ∀ {k : Nat} {m x : Int}, x ∈ rangeInts m k → m ≤ x ∧ x < m + k := by
  intro k
  induction k with
  | zero => intro m x h; cases h
  | succ k ih =>
      intro m x h
      rw [rangeInts] at h
      rcases List.mem_cons.mp h with h | h
      · subst h; omega
      · have := ih h; omega

theorem rangeInts_pairwise : ∀ (k : Nat) (m : Int),
    List.Pairwise (fun a b => a < b) (rangeInts m k) := by
  intro k
  induction k with
  | zero => intro m; exact List.Pairwise.nil
  | succ k ih =>
      intro m
      rw [rangeInts]
      exact List.Pairwise.cons (fun x hx => by have := mem_rangeInts hx; omega) (ih (m + 1))

theorem filter_rangeInts_past_end (y sy sm ey em : Int) (hy : y = ey) :
    ∀ (k : Nat) (m : Int), em < m →
      (rangeInts m k).filter
        (fun x => decide ((y = sy → sm ≤ x) ∧ (y = ey → x ≤ em))) = [] := by
  intro k
  induction k with
  | zero => intro m _; rfl
  | succ k ih =>
      intro m hm
      have hp : ¬((y = sy → sm ≤ m) ∧ (y = ey → m ≤ em)) := by
        intro h
        have := h.2 hy
        omega
      rw [rangeInts, List.filter_cons]
      simp only [decide_eq_false hp, Bool.false_eq_true, if_false]
      exact ih (m + 1) (by omega)

theorem monthLoopGo_eq_filter (y sy sm ey em : Int) : ∀ (k : Nat) (m : Int),
    monthLoopGo y sy sm ey em k m =
      (rangeInts m k).filter
        (fun x => decide ((y = sy → sm ≤ x) ∧ (y = ey → x ≤ em))) := by
  intro k
  induction k with
  | zero => intro m; rfl
  | succ k ih =>
      intro m
      by_cases hskip : y = sy ∧ m < sm
      · have hp : ¬((y = sy → sm ≤ m) ∧ (y = ey → m ≤ em)) := by
          intro h
          have := h.1 hskip.1
          omega
        rw [monthLoopGo, if_pos hskip, rangeInts, List.filter_cons]
        simp only [decide_eq_false hp, Bool.false_eq_true, if_false]
        exact ih (m + 1)
      · by_cases hbreak : y = ey ∧ m > em
        · have hp : ¬((y = sy → sm ≤ m) ∧ (y = ey → m ≤ em)) := by
            intro h
            have := h.2 hbreak.1
            omega
          rw [monthLoopGo, if_neg hskip, if_pos hbreak, rangeInts, List.filter_cons]
          simp only [decide_eq_false hp, Bool.false_eq_true, if_false]
          exact (filter_rangeInts_past_end y sy sm ey em hbreak.1 k (m + 1) (by omega)).symm
        · have hp : (y = sy → sm ≤ m) ∧ (y = ey → m ≤ em) := by
            constructor
            · intro h; by_contra hc; exact hskip ⟨h, by omega⟩
            · intro h; by_contra hc; exact hbreak ⟨h, by omega⟩
          rw [monthLoopGo, if_neg hskip, if_neg hbreak, rangeInts, List.filter_cons]
          simp only [decide_eq_true hp, if_true]
          rw [ih (m + 1)]

theorem pairwise_chron_flatMap (f : Int → List Int) (hf : ∀ y, List.Pairwise (fun a b => a < b) (f y)) :
    ∀ (ys : List Int), List.Pairwise (fun a b => a < b) ys →
      List.Pairwise chronLt (ys.flatMap (fun y => (f y).map (fun m => (y, m)))) := by
  intro ys
  induction ys with
  | nil => intro _; simp
  | cons y ys ih =>
      intro hys
      rw [List.flatMap_cons, List.pairwise_append]
      have hcons := List.pairwise_cons.mp hys
      refine ⟨?_, ih hcons.2, ?_⟩
      · exact List.pairwise_map.mpr ((hf y).imp (fun hab => Or.inr ⟨rfl, hab⟩))
      · intro a ha b hb
        obtain ⟨ma, _, hma⟩ := List.mem_map.mp ha
        obtain ⟨y', hy', hb'⟩ := List.mem_flatMap.mp hb
        obtain ⟨mb, _, hmb⟩ := List.mem_map.mp hb'
        have hyy : y < y' := hcons.1 y' hy'
        rw [← hma, ← hmb]
        exact Or.inl hyy

/-- Claim C7 (confirmed): `main` attempts to fetch and process exactly
the calendar (year, month) pairs from (start_year, start_month) to
(end_year, end_month) inclusive, in chronological order — every year of
the range, months 1–12 within a year, omitting months before
start_month in the start year and months after end_month in the end
year. -/
theorem main_pairs_chronological (start_year start_month end_year end_month : Int) :
    main_pairs start_year start_month end_year end_month =
      chronological_pairs start_year start_month end_year end_month
  ∧ List.Pairwise chronLt (main_pairs start_year start_month end_year end_month) := by
  have heq : main_pairs start_year start_month end_year end_month =
      chronological_pairs start_year start_month end_year end_month := by
    unfold main_pairs chronological_pairs
    simp only [monthLoopGo_eq_filter]
  refine ⟨heq, ?_⟩
  rw [heq]
  unfold chronological_pairs
  exact pairwise_chron_flatMap _
    (fun y => (rangeInts_pairwise 12 1).filter _)
    _ (rangeInts_pairwise _ start_year)

theorem mem_insertOrIgnore {x : Record} {db : List Record} {r : Record} (h : x ∈ db) :
    x ∈ insertOrIgnore db r := by
  unfold insertOrIgnore
  split
  · exact h
  · exact List.mem_append_left _ h

theorem mem_insertList {x : Record} : ∀ {rs : List Record} {db : List Record},
    x ∈ db → x ∈ insertList db rs := by
  intro rs
  induction rs with
  | nil => intro db h; exact h
  | cons r rs ih =>
      intro db h
      rw [insertList, List.foldl_cons]
      exact ih (mem_insertOrIgnore h)

theorem sqlEqB_self {v : Value} (h : isNullV v = false) : sqlEqB v v = true := by
  simp [sqlEqB, h]

theorem conflictB_self {r : Record} (h : nonNullKeys r = true) : conflictB r r = true := by
  simp only [nonNullKeys, Bool.and_eq_true, Bool.not_eq_true'] at h
  obtain ⟨h1, h2⟩ := h
  simp [conflictB, sqlEqB_self h1, sqlEqB_self h2]

theorem insertOrIgnore_of_conflict {db : List Record} {r row : Record}
    (hrow : row ∈ db) (hc : conflictB r row = true) : insertOrIgnore db r = db := by
  unfold insertOrIgnore
  rw [if_pos (List.any_eq_true.mpr ⟨row, hrow, hc⟩)]

theorem exists_conflict_insertList {r : Record} (hk : nonNullKeys r = true) :
    ∀ (rs : List Record) (db : List Record), r ∈ rs →
      ∃ row ∈ insertList db rs, conflictB r row = true := by
  intro rs
  induction rs with
  | nil => intro db h; cases h
  | cons r' rs ih =>
      intro db hmem
      rw [insertList, List.foldl_cons]
      rcases List.mem_cons.mp hmem with h | h
      · subst h
        by_cases hany : db.any (fun row => conflictB r row) = true
        · obtain ⟨row, hrowdb, hcrow⟩ := List.any_eq_true.mp hany
          exact ⟨row, mem_insertList (mem_insertOrIgnore hrowdb), hcrow⟩
        · have hr : r ∈ insertOrIgnore db r := by
            unfold insertOrIgnore
            rw [if_neg hany]
            exact List.mem_append_right _ (List.mem_singleton.mpr rfl)
          exact ⟨r, mem_insertList hr, conflictB_self hk⟩
      · exact ih (insertOrIgnore db r') h

theorem insertList_no_change : ∀ (rs : List Record) (db : List Record),
    (∀ r ∈ rs, ∃ row ∈ db, conflictB r row = true) → insertList db rs = db := by
  intro rs
  induction rs with
  | nil => intro db _; rfl
  | cons r rs ih =>
      intro db h
      obtain ⟨row, hrow, hc⟩ := h r (List.mem_cons_self r rs)
      rw [insertList, List.foldl_cons, insertOrIgnore_of_conflict hrow hc]
      exact ih db (fun r' hr' => h r' (List.mem_cons_of_mem r hr'))

theorem process_eq_insertList : ∀ (lines : List String) (db : List Record),
    process_and_insert_file lines db = insertList db (keptRecords lines) := by
  intro lines
  induction lines with
  | nil => intro db; rfl
  | cons line lines ih =>
      intro db
      by_cases h : keepLine line = true
      · rw [process_and_insert_file, List.foldl_cons, if_pos h]
        rw [keptRecords, List.filter_cons, if_pos h, List.map_cons, insertList, List.foldl_cons]
        exact ih (insertOrIgnore db (parse_line line.data))
      · rw [process_and_insert_file, List.foldl_cons, if_neg h]
        rw [keptRecords, List.filter_cons]
        simp only [Bool.not_eq_true] at h
        rw [h]
        exact ih db

theorem parse_line_bastidor_not_null (l : List Char) :
    isNullV (bastidorVal (parse_line l)) = false := by
  rfl

theorem keptRecords_nonNullKeys {lines : List String}
    (h : lines.all lineNonNullFecha = true) :
    ∀ r ∈ keptRecords lines, nonNullKeys r = true := by
  intro r hr
  rw [keptRecords] at hr
  obtain ⟨line, hline, hparse⟩ := List.mem_map.mp hr
  obtain ⟨hmem, hkeep⟩ := List.mem_filter.mp hline
  have hl := List.all_eq_true.mp h line hmem
  rw [lineNonNullFecha, Bool.or_eq_true, Bool.not_eq_true', Bool.not_eq_true'] at hl
  rcases hl with hl | hl
  · rw [hl] at hkeep; cases hkeep
  · rw [nonNullKeys, ← hparse, parse_line_bastidor_not_null, hl]
    rfl

/-- Claim C3 (corrected, restricted to non-null natural keys):
re-inserting a record whose natural key — non-null `bastidor` and
non-null `fecha_matriculacion` — equals that of an already-persisted row
leaves the store unchanged (in particular the row count), and running
the ingestion twice over the same input against the same store produces
no duplicate rows provided every kept line parses to a non-null
`fecha_matriculacion` (`bastidor`, a TEXT field, is never null).  For a
null `fecha_matriculacion` the claim fails (see the counterexample):
SQL treats null key components as pairwise distinct. -/
theorem reinsert_idempotent_amended :
    (∀ (db : List Record) (r row : Record), row ∈ db →
        isNullV (bastidorVal r) = false → isNullV (fechaVal r) = false →
        bastidorVal row = bastidorVal r → fechaVal row = fechaVal r →
        insertOrIgnore db r = db)
  ∧ (∀ (lines : List String) (db : List Record),
        lines.all lineNonNullFecha = true →
        process_and_insert_file lines (process_and_insert_file lines db) =
          process_and_insert_file lines db) := by
  constructor
  · intro db r row hrow hb hf heqb heqf
    apply insertOrIgnore_of_conflict hrow
    rw [conflictB, heqb, heqf]
    simp [sqlEqB_self hb, sqlEqB_self hf]
  · intro lines db hall
    simp only [process_eq_insertList]
    apply insertList_no_change
    intro r hr
    exact exists_conflict_insertList (keptRecords_nonNullKeys hall r hr) _ _ hr

set_option maxRecDepth 40000 in
/-- Witness for C3 at the synthetic file and its parsed record. -/
theorem reinsert_idempotent_witness :
    insertOrIgnore [rec1] rec1 = [rec1]
  ∧ process_and_insert_file syntheticFile (process_and_insert_file syntheticFile []) =
      process_and_insert_file syntheticFile [] :=
  ⟨reinsert_idempotent_amended.1 [rec1] rec1 rec1 (List.mem_singleton.mpr rfl)
      (by decide) (by decide) rfl rfl,
   reinsert_idempotent_amended.2 syntheticFile [] (by decide)⟩

theorem dchar_not_space : ∀ k, pyIsSpace (dchar k) = false := by
  intro k
  rcases k with _|_|_|_|_|_|_|_|_|k <;> rfl

theorem dchar_isDig : ∀ k, isDig (dchar k) = true := by
  intro k
  rcases k with _|_|_|_|_|_|_|_|_|k <;> rfl

theorem dval_dchar {k : Nat} (h : k ≤ 9) : dval (dchar k) = k := by
  interval_cases k <;> rfl

theorem dropWhile_of_forall_false {p : Char → Bool} {l : List Char}
    (h : ∀ c ∈ l, p c = false) : l.dropWhile p = l := by
  cases l with
  | nil => rfl
  | cons x xs =>
      rw [List.dropWhile_cons, h x (List.mem_cons_self x xs)]
      simp

theorem pyStrip_of_forall_not_space {l : List Char}
    (h : ∀ c ∈ l, pyIsSpace c = false) : pyStrip l = l := by
  rw [pyStrip, dropWhile_of_forall_false h,
    dropWhile_of_forall_false (fun c hc => h c (List.mem_reverse.mp hc)), List.reverse_reverse]

theorem fmt_eq_list (d m y : Nat) :
    fmtDDMMYYYY d m y =
      [dchar (d / 10), dchar (d % 10), dchar (m / 10), dchar (m % 10),
       dchar (y / 1000), dchar (y / 100 % 10), dchar (y / 10 % 10), dchar (y % 10)] := rfl

theorem fmt_chars {d m y : Nat} : ∀ c ∈ fmtDDMMYYYY d m y, pyIsSpace c = false := by
  intro c hc
  rw [fmt_eq_list] at hc
  simp only [List.mem_cons, List.not_mem_nil, or_false] at hc
  rcases hc with rfl | rfl | rfl | rfl | rfl | rfl | rfl | rfl <;> exact dchar_not_space _

set_option maxRecDepth 4000 in
theorem dayCands_head {d : Nat} (h1 : 1 ≤ d) (h2 : d ≤ 31) (rest : List Char) :
    ∃ t, dayCands (pad2 d ++ rest) = (d, rest) :: t := by
  interval_cases d <;> exact ⟨_, rfl⟩

set_option maxRecDepth 4000 in
theorem monthCands_head {m : Nat} (h1 : 1 ≤ m) (h2 : m ≤ 12) (rest : List Char) :
    ∃ t, monthCands (pad2 m ++ rest) = (m, rest) :: t := by
  interval_cases m <;> exact ⟨_, rfl⟩

theorem yearParse_pad4 {y : Nat} (hy : y ≤ 9999) : yearParse (pad4 y) = some y := by
  have h1 : y / 1000 ≤ 9 := by omega
  have h2 : y / 100 % 10 ≤ 9 := by omega
  have h3 : y / 10 % 10 ≤ 9 := by omega
  have h4 : y % 10 ≤ 9 := by omega
  simp only [pad4, yearParse, dchar_isDig, Bool.and_self, if_true]
  rw [dval_dchar h1, dval_dchar h2, dval_dchar h3, dval_dchar h4]
  exact congrArg some (by omega)

theorem strptime_fmt {d m y : Nat} (hd1 : 1 ≤ d) (hd2 : d ≤ 31) (hm1 : 1 ≤ m)
    (hm2 : m ≤ 12) (hy : y ≤ 9999) :
    strptimeDMY (fmtDDMMYYYY d m y) = some (d, m, y) := by
  obtain ⟨t, ht⟩ := dayCands_head hd1 hd2 (pad2 m ++ pad4 y)
  obtain ⟨t', ht'⟩ := monthCands_head hm1 hm2 (pad4 y)
  rw [strptimeDMY, fmtDDMMYYYY, List.append_assoc, ht, List.findSome?_cons]
  simp only [ht', List.findSome?_cons, yearParse_pad4 hy, Option.map_some']

theorem parse_value_fmt_date (name : String) {d m y : Nat} (hd1 : 1 ≤ d) (hd2 : d ≤ 31)
    (hm1 : 1 ≤ m) (hm2 : m ≤ 12) (hy1 : 1 ≤ y) (hy2 : y ≤ 9999)
    (hval : d ≤ daysInMonth y m) :
    parse_value (fmtDDMMYYYY d m y) name .DATE = .date y m d := by
  have hstrip : pyStrip (fmtDDMMYYYY d m y) = fmtDDMMYYYY d m y :=
    pyStrip_of_forall_not_space fmt_chars
  have hne : (fmtDDMMYYYY d m y).isEmpty = false := by
    simp [fmtDDMMYYYY, pad2]
  simp only [parse_value, hstrip, hne, Bool.false_eq_true, if_false, pyStrptimeDate,
    strptime_fmt hd1 hd2 hm1 hm2 hy2]
  rw [if_pos ⟨hy1, hm1, hm2, hd1, hval⟩]

/-- Claim C1 (corrected): for every valid calendar day/month/year
rendered as an 8-character `DDMMYYYY` string, parsing a DATE-typed
field yields exactly that date; blank (whitespace-only or empty) input
yields null; input rejected by the `%d%m%Y` parse yields null with no
error raised.  The original claim's "malformed input yields null" is
false: the `%d%m%Y` patterns also accept one-digit day/month and
space-led-day forms, so some non-`DDMMYYYY` inputs parse to dates (see
the counterexample). -/
theorem date_parse_amended :
    (∀ (name : String) (d m y : Nat), 1 ≤ d → d ≤ 31 → 1 ≤ m → m ≤ 12 → 1 ≤ y → y ≤ 9999 →
        d ≤ daysInMonth y m →
        parse_value (fmtDDMMYYYY d m y) name .DATE = .date y m d)
  ∧ (∀ (name : String) (v : List Char), (pyStrip v).isEmpty = true →
        parse_value v name .DATE = .null)
  ∧ (∀ (name : String) (v : List Char), pyStrptimeDate (pyStrip v) = none →
        parse_value v name .DATE = .null) := by
  refine ⟨?_, ?_, ?_⟩
  · intro name d m y hd1 hd2 hm1 hm2 hy1 hy2 hval
    exact parse_value_fmt_date name hd1 hd2 hm1 hm2 hy1 hy2 hval
  · intro name v h
    simp [parse_value, h]
  · intro name v h
    by_cases he : (pyStrip v).isEmpty = true
    · simp [parse_value, he]
    · simp [parse_value, he, h]

/-- Counterexample for C1: the 8-character raw value `" 111999 "` is not
in `DDMMYYYY` form (it strips to the six digits `111999`), yet the DATE
coercion does not yield null — `strptime("%d%m%Y")` backtracks to
day `1`, month `1`, year `1999` and the field parses to 1999-01-01. -/
theorem date_parse_malformed_counterexample :
    parse_value malformedDateInput fechaName .DATE = .date 1999 1 1
  ∧ Value.date 1999 1 1 ≠ .null := by
  decide

/-- Witness for C1 at the leap-day date 29-02-2020 and at blank and
rejected inputs. -/
theorem date_parse_amended_witness :
    parse_value (fmtDDMMYYYY 29 2 2020) fechaName .DATE = .date 2020 2 29
  ∧ parse_value [' '] fechaName .DATE = .null
  ∧ parse_value (r"31042020").data fechaName .DATE = .null :=
  ⟨date_parse_amended.1 fechaName 29 2 2020 (by decide) (by decide) (by decide) (by decide)
      (by decide) (by decide) (by decide),
   date_parse_amended.2.1 fechaName [' '] (by decide),
   date_parse_amended.2.2 fechaName (r"31042020").data (by decide)⟩
